import Mathlib

/-!
Shallow embedding of `src/syncbot/__init__.py` (Misskey → Mastodon
crossposter).

Conventions of the embedding:
* Python dict fields that may be absent or `None` are `Option`-valued;
  `none` stands for an absent key (and for JSON `null`, which the code
  treats identically through `dict.get`).
* Network effects (`requests` calls) are modelled as function parameters
  returning `Except Unit α`: `.error ()` stands for a raised
  `RequestException`, `.ok` for a successful response.  The broad
  `except Exception` handlers in the source catch exactly these modelled
  failures.
* `time.sleep` calls and `print` logging are recorded as trace events
  where a claim needs them, and dropped otherwise.
* Machine integers do not overflow in the modelled paths; `Int`/`Nat`
  are used directly.
-/

deriving instance DecidableEq for Except

namespace Syncbot

/-- Attachment descriptor: one element of a note's `files` list. -/
structure MFile where
  url : String
  name : Option String
  comment : Option String
deriving DecidableEq, Repr

/-- A Misskey note as consumed by the crossposter.  `none` fields model
absent (or `null`) dict keys; `mentions = []` models an absent or empty
mention list; `files = []` models an absent or empty `files` key. -/
structure Note where
  id : String
  text : Option String
  replyId : Option String
  renoteId : Option String
  mentions : List String
  visibility : Option String
  cw : Option String
  files : List MFile
deriving DecidableEq, Repr

/-- Python truthiness of an optional string: `None` and `""` are falsy. -/
def pyTruthy : Option String → Bool
  | none => false
  | some s => !s.data.isEmpty

/-- `should_crosspost` (lines 174–192): a note is excluded when it is a
reply, a renote/quote, carries structural mentions, or its text contains
the character `@`. -/
def should_crosspost (note : Note) : Bool :=
  if note.replyId.isSome then false
  else if note.renoteId.isSome then false
  else if !note.mentions.isEmpty && note.mentions.length > 0 then false
  else if pyTruthy note.text && (note.text.getD "").data.contains '@' then false
  else true

/-- The `visibility_map` dict literal (lines 196–201). -/
def visibility_map : List (String × String) :=
  [("public", "public"), ("followers", "private"),
   ("specified", "direct"), ("home", "unlisted")]

/-- `misskey_to_mastodon_visibility` (lines 194–202): dict lookup with
default `"public"`. -/
def misskey_to_mastodon_visibility (misskey_visibility : String) : String :=
  (visibility_map.lookup misskey_visibility).getD "public"

/-- Result of `MisskeyClient.download_attachment`: response content,
generated filename, content type. -/
structure Download where
  content : String
  filename : String
  contentType : String
deriving DecidableEq, Repr

/-- The arguments handed to `MastodonClient.create_status` by the
orchestrator. -/
structure StatusCall where
  text : String
  media_ids : List String
  visibility : String
  spoiler_text : Option String
deriving DecidableEq, Repr

/-- The network-facing ports: `download_attachment`, `upload_media`
(returning the uploaded media's id) and `create_status`.  `.error ()`
models a raised request exception. -/
structure Ports where
  download : String → Except Unit Download
  upload : Download → Option String → Except Unit String
  createStatus : StatusCall → Except Unit Unit

/-- `process_misskey_files` (lines 204–232): download then upload each
file, skipping (and only skipping) a file on which either leg raises;
collected media ids keep the original order.  The inter-attachment
`time.sleep(1)` is elided (it cannot fail and produces no data). -/
def process_misskey_files (p : Ports) : List MFile → List String
  | [] => []
  | f :: rest =>
    match p.download f.url with
    | .ok dl =>
      match p.upload dl f.comment with
      | .ok mediaId => mediaId :: process_misskey_files p rest
      | .error _ => process_misskey_files p rest
    | .error _ => process_misskey_files p rest

/-- The fate of a single attachment: `some mediaId` when both the
download and the upload leg succeed, `none` otherwise. -/
def attachment_result (p : Ports) (f : MFile) : Option String :=
  match p.download f.url with
  | .ok dl =>
    match p.upload dl f.comment with
    | .ok mediaId => some mediaId
    | .error _ => none
  | .error _ => none

/-- The body of `MastodonClient.create_status` (lines 153–171): the JSON
payload it posts.  `media_ids` is included only when the list is truthy
(non-empty); `spoiler_text` only when truthy (present and non-empty). -/
structure StatusPayload where
  status : String
  visibility : String
  content_type : String
  media_ids : Option (List String)
  spoiler_text : Option String
deriving DecidableEq, Repr

/-- `create_status` payload construction (lines 159–169). -/
def create_status (text : String) (media_ids : List String)
    (visibility : String) (spoiler_text : Option String) : StatusPayload :=
  { status := text
    visibility := visibility
    content_type := "text/markdown"
    media_ids := if media_ids.isEmpty then none else some media_ids
    spoiler_text := if pyTruthy spoiler_text then spoiler_text else none }

/-- Per-note crosspost outcome (spec §3 "Crosspost Outcome"). -/
inductive Outcome where
  | skipped
  | succeeded
  | failed
deriving DecidableEq, Repr

/-- The shared per-note body of `crosspost` (lines 251–276) and of the
streaming loop in `main` (lines 367–392): filter, transfer attachments,
map visibility, extract the content warning, create the status; a raise
from `create_status` is caught and turned into a per-note failure.
Returns the outcome together with the `create_status` argument record
(`none` when the note was filtered out and no call was attempted). -/
def process_note (p : Ports) (note : Note) : Outcome × Option StatusCall :=
  if should_crosspost note then
    let media_ids :=
      if note.files.isEmpty then [] else process_misskey_files p note.files
    let text := note.text.getD ""
    let visibility := misskey_to_mastodon_visibility (note.visibility.getD "public")
    let spoiler_text := note.cw
    let call : StatusCall := ⟨text, media_ids, visibility, spoiler_text⟩
    (match p.createStatus call with
     | .ok _ => Outcome.succeeded
     | .error _ => Outcome.failed,
     some call)
  else (Outcome.skipped, none)

/-- The batch-mode loop body of `crosspost` (lines 246–279), with the
running `newest_id` accumulator threaded explicitly: `newest_id` is set
to the id of the first note of the batch (the code assumes the feed
returns newest-first) and every note is handed to the per-note body. -/
def crosspost_loop (p : Ports) :
    List Note → Option String → Option String × List (Outcome × Option StatusCall)
  | [], newest_id => (newest_id, [])
  | note :: rest, newest_id =>
    let newest_id := if newest_id.isNone then some note.id else newest_id
    ((crosspost_loop p rest newest_id).1,
     process_note p note :: (crosspost_loop p rest newest_id).2)

/-- `crosspost` (lines 235–279) in batch mode: process one fetched batch
and return the id used as the next run's cursor, together with the
per-note results. -/
def crosspost (p : Ports) (notes : List Note) :
    Option String × List (Outcome × Option StatusCall) :=
  crosspost_loop p notes none

/-- The per-batch yield filter of `MisskeyClient.stream_notes`
(lines 97–101): a note is yielded when `since_id` is `None` or differs
from the note's id, and the generator's `since_id` is then set to that
note's id.  Returns the yielded notes in order and the final
`since_id`. -/
def dedup_yield (since_id : Option String) : List Note → List Note × Option String
  | [] => ([], since_id)
  | note :: rest =>
    if since_id.isNone ∨ some note.id ≠ since_id then
      (note :: (dedup_yield (some note.id) rest).1,
       (dedup_yield (some note.id) rest).2)
    else
      dedup_yield since_id rest

/-- Observable events of the continuous-mode run: a fetch issued with a
given `sinceId`, a note handed to the per-note body with its outcome, a
`save_state` of a cursor id, and a `time.sleep` of a given length in
seconds. -/
inductive Ev where
  | fetched (sinceId : Option String)
  | processed (id : String) (oc : Outcome)
  | saved (id : String)
  | slept (secs : Nat)
deriving DecidableEq, Repr

/-- The consumer side of `main`'s streaming loop (lines 364–396) over
one batch of yielded notes: each yielded note is processed (eligible or
not, succeeding or not) and then its id is persisted via `save_state`
before the next note is taken from the generator. -/
def dispatch_events (p : Ports) : List Note → List Ev
  | [] => []
  | note :: rest =>
    Ev.processed note.id (process_note p note).1 :: Ev.saved note.id ::
      dispatch_events p rest

/-- The combined continuous-mode loop: `MisskeyClient.stream_notes`
(lines 90–106) interleaved with its consumer in `main` (lines 364–396),
sequentialised in generator order.  `fetch i s` is the result of
`get_user_notes` at iteration `i` with cursor `s` (`.error ()` models a
`RequestException`); `running i` is the value of the cooperative stop
flag `self._running` as sampled by the `while` test of iteration `i`;
`fuel` bounds the number of iterations examined.  Returns the event
trace and the generator's final `since_id`. -/
def main_run (p : Ports) (fetch : Nat → Option String → Except Unit (List Note))
    (running : Nat → Bool) : Nat → Nat → Option String → List Ev × Option String
  | 0, _, s => ([], s)
  | fuel + 1, i, s =>
    if running i then
      match fetch i s with
      | .error _ =>
        (Ev.fetched s :: Ev.slept 30 ::
           (main_run p fetch running fuel (i + 1) s).1,
         (main_run p fetch running fuel (i + 1) s).2)
      | .ok notes =>
        (Ev.fetched s ::
           (dispatch_events p (dedup_yield s notes).1 ++ Ev.slept 5 ::
             (main_run p fetch running fuel (i + 1) (dedup_yield s notes).2).1),
         (main_run p fetch running fuel (i + 1) (dedup_yield s notes).2).2)
    else ([], s)

/-- Number of fetches in a trace. -/
def fetchCount (evs : List Ev) : Nat :=
  (evs.filter fun e => match e with | Ev.fetched _ => true | _ => false).length

/-- The sleep lengths of a trace, in order. -/
def sleepSecs (evs : List Ev) : List Nat :=
  evs.filterMap fun e => match e with | Ev.slept n => some n | _ => none

/-- The cursor ids persisted by `save_state`, in order. -/
def savedIds (evs : List Ev) : List String :=
  evs.filterMap fun e => match e with | Ev.saved i => some i | _ => none

/-- The `Config` dataclass (lines 21–37). -/
structure Config where
  misskey_instance : String
  misskey_token : String
  misskey_user_id : String
  mastodon_instance : String
  mastodon_token : String
  fetch_limit : Int
  since_id : Option String
  crosspost_delay : Int
deriving DecidableEq, Repr

/-- The five required entries of `config_dict`, each still optional
before validation. -/
structure ReqCfg where
  misskey_instance : Option String
  misskey_token : Option String
  misskey_user_id : Option String
  mastodon_instance : Option String
  mastodon_token : Option String
deriving DecidableEq, Repr

/-- `required_fields` (lines 298–304). -/
def required_fields : List String :=
  ["misskey_instance", "misskey_token", "misskey_user_id",
   "mastodon_instance", "mastodon_token"]

/-- `config_dict[field]` lookup for the required fields. -/
def ReqCfg.get (r : ReqCfg) (k : String) : Option String :=
  if k = "misskey_instance" then r.misskey_instance
  else if k = "misskey_token" then r.misskey_token
  else if k = "misskey_user_id" then r.misskey_user_id
  else if k = "mastodon_instance" then r.mastodon_instance
  else if k = "mastodon_token" then r.mastodon_token
  else none

/-- `missing_fields` (lines 320–322): the required fields still `None`
after consulting environment and config file, in `required_fields`
order. -/
def ReqCfg.missingFields (r : ReqCfg) : List String :=
  required_fields.filter fun field => (r.get field).isNone

/-- The file-merge step (lines 312–315): a value from the config file
fills a required entry only when the environment left it `None`. -/
def ReqCfg.mergeFile (r file : ReqCfg) : ReqCfg :=
  ⟨r.misskey_instance <|> file.misskey_instance,
   r.misskey_token <|> file.misskey_token,
   r.misskey_user_id <|> file.misskey_user_id,
   r.mastodon_instance <|> file.mastodon_instance,
   r.mastodon_token <|> file.mastodon_token⟩

/-- A config file none of whose recognised keys are present (also the
reading of a missing or unparsable file, lines 316–317). -/
def emptyReq : ReqCfg := ⟨none, none, none, none, none⟩

/-- The process environment as consulted by `load_config`
(lines 287–295): the five required variables plus the two numeric
overrides, each absent or a raw string. -/
structure Env where
  misskey_instance : Option String
  misskey_token : Option String
  misskey_user_id : Option String
  mastodon_instance : Option String
  mastodon_token : Option String
  fetch_limit : Option String
  crosspost_delay : Option String

/-- Whitespace as stripped by Python's `int(...)` conversion. -/
def pySpace (c : Char) : Bool :=
  c = ' ' ∨ c = '\t' ∨ c = '\n' ∨ c = '\r'

/-- Decimal digit run to a number; `none` on an empty or non-digit run. -/
def digitsToNat : List Char → Option Nat
  | [] => none
  | cs => cs.foldl (fun acc c =>
      acc.bind fun n => if c.isDigit then some (n * 10 + (c.toNat - 48)) else none)
      (some 0)

/-- Python's `int(...)` on a string: optional surrounding whitespace, an
optional sign, then decimal digits; `none` models a raised `ValueError`
(digit-group underscores are not modelled). -/
def pyInt (s : String) : Option Int :=
  let cs := ((s.data.dropWhile pySpace).reverse.dropWhile pySpace).reverse
  match cs with
  | '-' :: ds => (digitsToNat ds).map fun n => -(n : Int)
  | '+' :: ds => (digitsToNat ds).map fun n => (n : Int)
  | ds => (digitsToNat ds).map fun n => (n : Int)

/-- The required entries of `config_dict` as first filled from the
environment (lines 287–295). -/
def envReq (env : Env) : ReqCfg :=
  ⟨env.misskey_instance, env.misskey_token, env.misskey_user_id,
   env.mastodon_instance, env.mastodon_token⟩

/-- The required entries after the conditional config-file merge
(lines 306–317): the file is consulted only when at least one required
entry is missing from the environment. -/
def mergedReq (env : Env) (file : Option ReqCfg) : ReqCfg :=
  let req0 := envReq env
  if required_fields.any fun field => (req0.get field).isNone then
    req0.mergeFile (file.getD emptyReq)
  else req0

/-- How `load_config` can fail: a `ValueError` from `int()` on a numeric
environment override (lines 293–294), or the `ValueError` raised at
line 324 carrying the list of missing required fields. -/
inductive LoadError where
  | badInt (var : String)
  | missingRequired (fields : List String)
deriving DecidableEq, Repr

/-- `load_config` (lines 282–335).  `env` is the process environment,
`file` the parsed config file (`none` when missing or invalid JSON,
both caught at lines 316–317), and `state` the parsed
`crosspost_state.json` (`none` when missing or invalid, else the
`since_id` entry it holds).  Evaluation order follows the source: the
numeric overrides are converted with `int()` while `config_dict` is
built, before any required-field validation. -/
def load_config (env : Env) (file : Option ReqCfg)
    (state : Option (Option String)) : Except LoadError Config :=
  match pyInt (env.fetch_limit.getD "20") with
  | none => .error (.badInt "FETCH_LIMIT")
  | some fl =>
    match pyInt (env.crosspost_delay.getD "2") with
    | none => .error (.badInt "CROSSPOST_DELAY")
    | some cd =>
      let merged := mergedReq env file
      match merged.misskey_instance, merged.misskey_token,
            merged.misskey_user_id, merged.mastodon_instance,
            merged.mastodon_token with
      | some a, some b, some c, some d, some e =>
        .ok ⟨a, b, c, d, e, fl, state.getD none, cd⟩
      | _, _, _, _, _ => .error (.missingRequired merged.missingFields)

/-! ### Fixtures used by concrete witnesses and counterexamples -/

/-- A bare note carrying only an id: no reply/renote target, no
mentions, no text, default visibility, no content warning, no files. -/
def mkNote (i : String) : Note := ⟨i, none, none, none, [], none, none, []⟩

/-- Ports on which every network call succeeds; an upload's media id is
the downloaded content, and a download's content is the source URL. -/
def okPorts : Ports :=
  ⟨fun u => .ok ⟨u, "f", "t"⟩, fun dl _ => .ok dl.content, fun _ => .ok ()⟩

/-! ### Helper lemmas -/

theorem process_misskey_files_eq (p : Ports) (files : List MFile) :
    process_misskey_files p files = files.filterMap (attachment_result p) := by
  induction files with
  | nil => rfl
  | cons f rest ih =>
    cases hd : p.download f.url with
    | error e => simp [process_misskey_files, attachment_result, hd, ih]
    | ok dl =>
      cases hu : p.upload dl f.comment with
      | error e => simp [process_misskey_files, attachment_result, hd, hu, ih]
      | ok mediaId => simp [process_misskey_files, attachment_result, hd, hu, ih]

theorem media_ids_if_eq (p : Ports) (files : List MFile) :
    (if files.isEmpty then [] else process_misskey_files p files)
      = files.filterMap (attachment_result p) := by
  by_cases hf : files.isEmpty
  · have : files = [] := List.isEmpty_iff.mp hf
    subst this
    simp
  · simp [hf, process_misskey_files_eq]

theorem process_note_eligible (p : Ports) (note : Note)
    (h : should_crosspost note = true) :
    (process_note p note).2 = some
      ⟨note.text.getD "",
       if note.files.isEmpty then [] else process_misskey_files p note.files,
       misskey_to_mastodon_visibility (note.visibility.getD "public"),
       note.cw⟩ := by
  unfold process_note
  rw [h]
  rfl

theorem pyTruthy_and_contains (t : Option String) :
    (pyTruthy t && (t.getD "").data.contains '@') = true ↔
      (t.isSome = true ∧ (t.getD "").data.contains '@' = true) := by
  rcases t with _ | s
  · simp [pyTruthy]
  · simp only [pyTruthy, Option.getD_some, Option.isSome_some, true_and,
      Bool.and_eq_true, Bool.not_eq_true']
    generalize s.data = l
    cases l <;> simp

/-! ### Claim theorems -/

/-- C2: `should_crosspost` returns `false` iff the note has a non-absent
reply-target id, a non-absent renote/quote-target id, a non-empty
mention list, or body text that is present and contains the character
`@`; a note failing none of the four rules yields `true`. -/
theorem eligibility_filter_iff (note : Note) :
    should_crosspost note = false ↔
      (note.replyId.isSome = true ∨ note.renoteId.isSome = true ∨
        note.mentions ≠ [] ∨
        (note.text.isSome = true ∧ (note.text.getD "").data.contains '@' = true)) := by
  unfold should_crosspost
  split_ifs with h1 h2 h3 h4
  · exact iff_of_true rfl (Or.inl h1)
  · exact iff_of_true rfl (Or.inr (Or.inl h2))
  · have hm : note.mentions ≠ [] := by
      rcases hmm : note.mentions with _ | ⟨x, xs⟩
      · rw [hmm] at h3; simp at h3
      · simp [hmm]
    exact iff_of_true rfl (Or.inr (Or.inr (Or.inl hm)))
  · exact iff_of_true rfl
      (Or.inr (Or.inr (Or.inr ((pyTruthy_and_contains note.text).mp h4))))
  · have hm : note.mentions = [] := by
      rcases hmm : note.mentions with _ | ⟨x, xs⟩
      · rfl
      · exfalso; apply h3; rw [hmm]; simp
    refine iff_of_false (by simp) ?_
    rintro (hh | hh | hh | hh)
    · exact h1 hh
    · exact h2 hh
    · exact hh hm
    · exact h4 ((pyTruthy_and_contains note.text).mpr hh)

/-- C7: the visibility mapper is a total function realising exactly
public→public, followers→private, specified→direct, home→unlisted, and
returning `"public"` for every other input. -/
theorem visibility_mapping_exact :
    (misskey_to_mastodon_visibility "public" = "public" ∧
     misskey_to_mastodon_visibility "followers" = "private" ∧
     misskey_to_mastodon_visibility "specified" = "direct" ∧
     misskey_to_mastodon_visibility "home" = "unlisted") ∧
    ∀ v : String, v ∉ ["public", "followers", "specified", "home"] →
      misskey_to_mastodon_visibility v = "public" := by
  refine ⟨⟨rfl, rfl, rfl, rfl⟩, ?_⟩
  intro v hv
  simp only [List.mem_cons, List.not_mem_nil, or_false, not_or] at hv
  obtain ⟨h1, h2, h3, h4⟩ := hv
  have e1 : (v == "public") = false := beq_eq_false_iff_ne.mpr h1
  have e2 : (v == "followers") = false := beq_eq_false_iff_ne.mpr h2
  have e3 : (v == "specified") = false := beq_eq_false_iff_ne.mpr h3
  have e4 : (v == "home") = false := beq_eq_false_iff_ne.mpr h4
  simp [misskey_to_mastodon_visibility, visibility_map, List.lookup,
    e1, e2, e3, e4]

/-- Witness for C7 at the unrecognised visibility `"latest"`. -/
theorem visibility_mapping_exact_witness :
    ("latest" ∉ ["public", "followers", "specified", "home"]) ∧
    misskey_to_mastodon_visibility "latest" = "public" :=
  ⟨by decide, visibility_mapping_exact.2 "latest" (by decide)⟩

/-- C4: the attachment pipeline returns the destination media ids of
exactly the attachments whose download and upload both succeed, in the
original relative order (a failing attachment is skipped, the rest are
unaffected); and an eligible note is still handed to status creation
with whatever subset (possibly empty) was collected. -/
theorem attachment_partial_failure_isolation :
    (∀ (p : Ports) (files : List MFile),
        process_misskey_files p files = files.filterMap (attachment_result p)) ∧
    ∀ (p : Ports) (note : Note), should_crosspost note = true →
      (process_note p note).2 =
        some ⟨note.text.getD "", note.files.filterMap (attachment_result p),
              misskey_to_mastodon_visibility (note.visibility.getD "public"),
              note.cw⟩ := by
  refine ⟨process_misskey_files_eq, ?_⟩
  intro p note h
  rw [process_note_eligible p note h, media_ids_if_eq]

/-- Ports on which downloading the URL `"u2"` raises and every other
call succeeds; an upload's media id is the downloaded content. -/
def cexPorts : Ports :=
  ⟨fun u => if u = "u2" then .error () else .ok ⟨u, "f", "t"⟩,
   fun dl _ => .ok dl.content, fun _ => .ok ()⟩

/-- Witness for C4: with three attachments whose second download fails,
exactly the ids of attachments 1 and 3 come back, in order; and a
file-less eligible note still produces a status-creation call. -/
theorem attachment_partial_failure_isolation_witness :
    (process_misskey_files cexPorts
        [⟨"u1", none, none⟩, ⟨"u2", none, none⟩, ⟨"u3", none, none⟩]
      = ["u1", "u3"]) ∧
    (process_note cexPorts (mkNote "n1")).2 ≠ none := by
  constructor
  · rw [attachment_partial_failure_isolation.1]
    decide
  · rw [attachment_partial_failure_isolation.2 cexPorts (mkNote "n1") (by decide)]
    decide

/-- C8: for every eligible note the orchestrator hands `create_status`
the content warning verbatim, together with the body text, collected
media ids and mapped visibility; and with no content warning the posted
payload carries no spoiler text. -/
theorem content_warning_fidelity :
    ∀ (p : Ports) (note : Note), should_crosspost note = true →
      ∃ call, (process_note p note).2 = some call ∧
        call.spoiler_text = note.cw ∧
        call.text = note.text.getD "" ∧
        call.visibility = misskey_to_mastodon_visibility (note.visibility.getD "public") ∧
        call.media_ids = note.files.filterMap (attachment_result p) ∧
        (note.cw = none →
          (create_status call.text call.media_ids call.visibility
              call.spoiler_text).spoiler_text = none) := by
  intro p note h
  refine ⟨_, process_note_eligible p note h, rfl, rfl, rfl,
    media_ids_if_eq p note.files, ?_⟩
  intro hcw
  simp [create_status, pyTruthy, hcw]

/-- A plain eligible note with a content warning. -/
def noteW : Note :=
  ⟨"w1", some "hello world", none, none, [], some "home", some "warn", []⟩

/-- Witness for C8 at a concrete eligible note carrying a content
warning. -/
theorem content_warning_fidelity_witness :
    ∃ call, (process_note okPorts noteW).2 = some call ∧
      call.spoiler_text = noteW.cw ∧
      call.text = noteW.text.getD "" ∧
      call.visibility = misskey_to_mastodon_visibility (noteW.visibility.getD "public") ∧
      call.media_ids = noteW.files.filterMap (attachment_result okPorts) ∧
      (noteW.cw = none →
        (create_status call.text call.media_ids call.visibility
            call.spoiler_text).spoiler_text = none) :=
  content_warning_fidelity okPorts noteW (by decide)

/-- C5: every note of a batch, and every yielded note of the stream, is
handed to the per-note body, whose result is a pure function of that
note alone — a failure while crossposting one note (modelled inside
`process_note`, whose `Outcome` absorbs the raise from attachment
transfer or status creation) leaves the processing of every other note
unchanged and never escapes to the loop. -/
theorem per_post_failure_containment :
    (∀ (p : Ports) (notes : List Note) (acc : Option String),
        (crosspost_loop p notes acc).2 = notes.map (process_note p)) ∧
    (∀ (p : Ports) (ys : List Note),
        (dispatch_events p ys).filterMap
            (fun e => match e with
              | Ev.processed i oc => some (i, oc)
              | _ => none)
          = ys.map fun n => (n.id, (process_note p n).1)) := by
  constructor
  · intro p notes
    induction notes with
    | nil => intro acc; rfl
    | cons n rest ih => intro acc; simp [crosspost_loop, ih]
  · intro p ys
    induction ys with
    | nil => rfl
    | cons n rest ih => simp [dispatch_events, ih]

theorem dedup_yield_sublist (s : Option String) (ns : List Note) :
    (dedup_yield s ns).1.Sublist ns := by
  induction ns generalizing s with
  | nil => simp [dedup_yield]
  | cons n rest ih =>
    by_cases h : s.isNone ∨ some n.id ≠ s
    · rw [dedup_yield, if_pos h]
      exact List.Sublist.cons₂ n (ih (some n.id))
    · rw [dedup_yield, if_neg h]
      exact List.Sublist.cons n (ih s)

theorem dedup_yield_nil_cursor (s : Option String) (ns : List Note)
    (h : (dedup_yield s ns).1 = []) : (dedup_yield s ns).2 = s := by
  induction ns generalizing s with
  | nil => rfl
  | cons n rest ih =>
    by_cases hc : s.isNone ∨ some n.id ≠ s
    · rw [dedup_yield, if_pos hc] at h
      simp at h
    · rw [dedup_yield, if_neg hc] at h ⊢
      exact ih s h

theorem dedup_yield_last_id (s : Option String) (ns : List Note) (n : Note)
    (h : (dedup_yield s ns).1.getLast? = some n) :
    (dedup_yield s ns).2 = some n.id := by
  induction ns generalizing s with
  | nil => simp [dedup_yield] at h
  | cons m rest ih =>
    by_cases hc : s.isNone ∨ some m.id ≠ s
    · rw [dedup_yield, if_pos hc] at h ⊢
      cases hys : (dedup_yield (some m.id) rest).1 with
      | nil =>
        rw [hys] at h
        simp only [List.getLast?_singleton, Option.some.injEq] at h
        rw [← h]
        exact dedup_yield_nil_cursor (some m.id) rest hys
      | cons y ys =>
        rw [hys, List.getLast?_cons_cons] at h
        exact ih (some m.id) (by rw [hys]; exact h)
    · rw [dedup_yield, if_neg hc] at h ⊢
      exact ih s h

/-- C10: the stream's deduplication is equality-only — a fetched note is
yielded exactly when its id differs from the evolving cursor (a note
whose id is older than, but different from, the cursor is still
yielded); yields keep the feed order; and the cursor ends at the last
yielded note's id. -/
theorem stream_dedup_equality_only :
    (∀ (s : Option String) (n : Note) (rest : List Note), some n.id ≠ s →
        dedup_yield s (n :: rest)
          = (n :: (dedup_yield (some n.id) rest).1,
             (dedup_yield (some n.id) rest).2)) ∧
    (∀ (s : String) (n : Note) (rest : List Note), n.id = s →
        dedup_yield (some s) (n :: rest) = dedup_yield (some s) rest) ∧
    (∀ (s : Option String) (ns : List Note), (dedup_yield s ns).1.Sublist ns) ∧
    (∀ (s : Option String) (ns : List Note) (n : Note),
        (dedup_yield s ns).1.getLast? = some n →
        (dedup_yield s ns).2 = some n.id) := by
  refine ⟨?_, ?_, dedup_yield_sublist, dedup_yield_last_id⟩
  · intro s n rest h
    rw [dedup_yield, if_pos (Or.inr h)]
  · intro s n rest h
    rw [dedup_yield, if_neg (by simp [h])]

/-- Witness for C10: a note whose id `"a"` precedes the cursor `"b"`
in identifier order is still yielded, and the cursor moves to it. -/
theorem stream_dedup_equality_only_witness :
    (some (mkNote "a").id ≠ some "b") ∧
    dedup_yield (some "b") [mkNote "a"] = ([mkNote "a"], some "a") := by
  refine ⟨by decide, ?_⟩
  rw [stream_dedup_equality_only.1 (some "b") (mkNote "a") [] (by decide)]
  rfl

/-- C3: a transport error on a fetch in continuous mode is absorbed by
the loop: the iteration yields nothing, saves nothing, sleeps the long
30-second backoff, and the loop continues with the cursor unchanged —
the next fetch retries the very same `sinceId`. -/
theorem fetch_failure_backoff :
    ∀ (p : Ports) (fetch : Nat → Option String → Except Unit (List Note))
      (running : Nat → Bool) (fuel i : Nat) (s : Option String),
      running i = true → fetch i s = .error () →
      main_run p fetch running (fuel + 1) i s =
        (Ev.fetched s :: Ev.slept 30 ::
           (main_run p fetch running fuel (i + 1) s).1,
         (main_run p fetch running fuel (i + 1) s).2) := by
  intro p fetch running fuel i s hr hf
  rw [main_run, if_pos hr, hf]

/-- Witness for C3 with a fetch that always raises. -/
theorem fetch_failure_backoff_witness :
    main_run okPorts
        (fun _ _ => (Except.error () : Except Unit (List Note)))
        (fun _ => true) 1 0 (some "c")
      = ([Ev.fetched (some "c"), Ev.slept 30], some "c") := by
  rw [fetch_failure_backoff okPorts
    (fun _ _ => (Except.error () : Except Unit (List Note)))
    (fun _ => true) 0 0 (some "c") rfl rfl]
  rfl

theorem main_run_not_running (p : Ports)
    (fetch : Nat → Option String → Except Unit (List Note))
    (running : Nat → Bool) (fuel i : Nat) (s : Option String)
    (h : running i = false) : main_run p fetch running fuel i s = ([], s) := by
  cases fuel with
  | zero => rfl
  | succ fuel => rw [main_run, if_neg (by simp [h])]

theorem dispatch_events_no_fetch (p : Ports) (ys : List Note) :
    (dispatch_events p ys).filter
        (fun e => match e with | Ev.fetched _ => true | _ => false) = [] := by
  induction ys with
  | nil => rfl
  | cons n rest ih => simp [dispatch_events, ih]

theorem dispatch_events_no_sleep (p : Ports) (ys : List Note) :
    (dispatch_events p ys).filterMap
        (fun e => match e with | Ev.slept n => some n | _ => none) = [] := by
  induction ys with
  | nil => rfl
  | cons n rest ih => simp [dispatch_events, ih]

/-- C6 counterexample: the stop flag is cleared just after the loop-top
check of iteration 0 (`running j` is `false` for every `j ≥ 1`) and the
fetch of iteration 0 raises; the engine nonetheless performs the whole
uninterruptible 30-second backoff sleep — six times the 5-second polling
interval — before the next loop-top check can observe the flag.  There
is no flag check at any sleep boundary, so the claimed
"honored within one polling interval" bound fails. -/
theorem cancellation_promptness_cex :
    main_run okPorts (fun _ _ => (Except.error () : Except Unit (List Note)))
        (fun j => j == 0) 2 0 none
      = ([Ev.fetched none, Ev.slept 30], none) ∧
    sleepSecs [Ev.fetched none, Ev.slept 30] = [30] ∧ 30 > 5 := by
  decide

/-- C6 amended: the stop flag is sampled only at the top of each loop
iteration and sleeps are monolithic; what holds is that once a loop-top
check observes the flag cleared no further fetch or sleep occurs at all,
and a stop requested during an iteration is honored after at most that
one remaining iteration — at most one more fetch, and sleeps bounded by
the 30-second backoff (not by the 5-second polling interval). -/
theorem cancellation_amended :
    (∀ (p : Ports) (fetch : Nat → Option String → Except Unit (List Note))
        (running : Nat → Bool) (fuel i : Nat) (s : Option String),
        running i = false → main_run p fetch running fuel i s = ([], s)) ∧
    (∀ (p : Ports) (fetch : Nat → Option String → Except Unit (List Note))
        (running : Nat → Bool) (fuel i : Nat) (s : Option String),
        (∀ j, i < j → running j = false) →
        fetchCount (main_run p fetch running fuel i s).1 ≤ 1 ∧
        ∀ x ∈ sleepSecs (main_run p fetch running fuel i s).1, x ≤ 30) := by
  refine ⟨main_run_not_running, ?_⟩
  intro p fetch running fuel i s h
  cases fuel with
  | zero =>
    simp [main_run, fetchCount, sleepSecs]
  | succ fuel =>
    by_cases hr : running i = true
    · have hnext := main_run_not_running p fetch running fuel (i + 1)
      rw [main_run, if_pos hr]
      cases hf : fetch i s with
      | error e =>
        dsimp only
        rw [hnext s (h (i + 1) (Nat.lt_succ_self i))]
        simp [fetchCount, sleepSecs]
      | ok notes =>
        dsimp only
        rw [hnext (dedup_yield s notes).2 (h (i + 1) (Nat.lt_succ_self i))]
        simp [fetchCount, sleepSecs, List.filter_append, List.filterMap_append,
          dispatch_events_no_fetch, dispatch_events_no_sleep]
    · rw [main_run_not_running p fetch running (fuel + 1) i s
        (Bool.not_eq_true _ ▸ hr)]
      simp [fetchCount, sleepSecs]

/-- Witness for C6 amended: a cleared flag stops the loop cold, and with
the flag cleared from iteration 1 on, the run from iteration 0 performs
at most one fetch. -/
theorem cancellation_amended_witness :
    main_run okPorts (fun _ _ => (Except.error () : Except Unit (List Note)))
        (fun _ => false) 5 0 (some "z") = ([], some "z") ∧
    fetchCount (main_run okPorts
        (fun _ _ => (Except.error () : Except Unit (List Note)))
        (fun j => j == 0) 3 0 none).1 ≤ 1 :=
  ⟨cancellation_amended.1 okPorts
      (fun _ _ => (Except.error () : Except Unit (List Note)))
      (fun _ => false) 5 0 (some "z") rfl,
   (cancellation_amended.2 okPorts
      (fun _ _ => (Except.error () : Except Unit (List Note)))
      (fun j => j == 0) 3 0 none
      (fun _ hj => beq_eq_false_iff_ne.mpr (Nat.pos_iff_ne_zero.mp hj))).1⟩

theorem crosspost_loop_first (p : Ports) (rest : List Note) (x : String) :
    (crosspost_loop p rest (some x)).1 = some x := by
  induction rest with
  | nil => rfl
  | cons n r ih => simp [crosspost_loop, ih]

/-- C1 counterexample: a batch of two posts with strictly increasing
identifiers (`"a" < "b"` in feed order).  Batch-mode `crosspost`
returns the first post's id `"a"` as the next cursor — the code assumes
a newest-first feed — not the last post's id `"b"` as the claim
states. -/
theorem cursor_monotonicity_cex :
    ("a".data < "b".data) ∧
    (crosspost okPorts [mkNote "a", mkNote "b"]).1 = some "a" ∧
    ¬(crosspost okPorts [mkNote "a", mkNote "b"]).1 = some "b" := by
  decide

/-- C1 amended: batch-mode `crosspost` returns the id of the FIRST post
of the batch (the newest under the code's newest-first assumption);
in continuous mode every yielded post — eligible or not, succeeding or
not — is processed and then immediately has its id persisted before the
next post is taken, so the cursor after a batch is the last yielded
post's id. -/
theorem cursor_advancement_amended :
    (∀ (p : Ports) (n : Note) (rest : List Note),
        (crosspost p (n :: rest)).1 = some n.id) ∧
    (∀ (p : Ports) (ys : List Note),
        dispatch_events p ys
          = ys.flatMap fun n =>
              [Ev.processed n.id (process_note p n).1, Ev.saved n.id]) ∧
    (∀ (p : Ports) (ys : List Note),
        savedIds (dispatch_events p ys) = ys.map fun n => n.id) ∧
    (∀ (s : Option String) (ns : List Note) (n : Note),
        (dedup_yield s ns).1.getLast? = some n →
        (dedup_yield s ns).2 = some n.id) := by
  refine ⟨?_, ?_, ?_, dedup_yield_last_id⟩
  · intro p n rest
    unfold crosspost
    rw [crosspost_loop]
    simp [crosspost_loop_first]
  · intro p ys
    induction ys with
    | nil => rfl
    | cons n rest ih => simp [dispatch_events, ih]
  · intro p ys
    induction ys with
    | nil => rfl
    | cons n rest ih =>
      simp only [savedIds] at ih
      simp [dispatch_events, savedIds, ih]

/-- Witness for C1 amended at a concrete two-post batch. -/
theorem cursor_advancement_amended_witness :
    (crosspost okPorts [mkNote "x", mkNote "y"]).1 = some "x" ∧
    (dedup_yield none [mkNote "x", mkNote "y"]).1.getLast? = some (mkNote "y") ∧
    (dedup_yield none [mkNote "x", mkNote "y"]).2 = some "y" :=
  ⟨cursor_advancement_amended.1 okPorts (mkNote "x") [mkNote "y"],
   by decide,
   cursor_advancement_amended.2.2.2 none [mkNote "x", mkNote "y"]
     (mkNote "y") (by decide)⟩

theorem missingFields_nil_iff (r : ReqCfg) :
    r.missingFields = [] ↔
      (r.misskey_instance.isSome = true ∧ r.misskey_token.isSome = true ∧
       r.misskey_user_id.isSome = true ∧ r.mastodon_instance.isSome = true ∧
       r.mastodon_token.isSome = true) := by
  rcases r with ⟨a, b, c, d, e⟩
  rcases a <;> rcases b <;> rcases c <;> rcases d <;> rcases e <;>
    simp [ReqCfg.missingFields, required_fields, ReqCfg.get]

/-- The environment of the C9 counterexample: every required field is
present, but `FETCH_LIMIT` is set to a non-numeric string. -/
def envCex : Env :=
  ⟨some "https://mk.example", some "mtok", some "uid",
   some "https://md.example", some "atok", some "abc", none⟩

/-- C9 counterexample: with every required field present, configuration
loading still fails — the `int()` conversion of `FETCH_LIMIT` raises
while `config_dict` is being built, before the missing-field validation
is reached; by the same precedence, a configuration that is also missing
a required field fails with the conversion error instead of an error
naming the missing fields. -/
theorem config_validation_cex :
    (envReq envCex).missingFields = [] ∧
    load_config envCex none none = .error (.badInt "FETCH_LIMIT") ∧
    load_config ⟨none, some "mtok", some "uid", some "https://md.example",
        some "atok", some "abc", none⟩ none none
      = .error (.badInt "FETCH_LIMIT") := by
  decide

/-- C9 amended: provided the numeric environment overrides parse as
integers, loading fails iff some required field is still absent after
consulting environment and config file, and the error then carries
exactly the missing required fields in declaration order; an unparsable
numeric override instead aborts the load with the `int()` conversion
error before the missing-field validation runs. -/
theorem config_validation_amended :
    ∀ (env : Env) (file : Option ReqCfg) (state : Option (Option String)),
      (pyInt ((env.fetch_limit).getD "20")).isSome = true →
      (pyInt ((env.crosspost_delay).getD "2")).isSome = true →
      (((mergedReq env file).missingFields ≠ [] →
          load_config env file state
            = .error (.missingRequired (mergedReq env file).missingFields)) ∧
       ((mergedReq env file).missingFields = [] →
          ∃ c, load_config env file state = .ok c) ∧
       (∀ k, k ∈ (mergedReq env file).missingFields ↔
          (k ∈ required_fields ∧ (mergedReq env file).get k = none))) := by
  intro env file state h1 h2
  obtain ⟨fl, hfl⟩ := Option.isSome_iff_exists.mp h1
  obtain ⟨cd, hcd⟩ := Option.isSome_iff_exists.mp h2
  have hload : load_config env file state =
      (match (mergedReq env file).misskey_instance,
             (mergedReq env file).misskey_token,
             (mergedReq env file).misskey_user_id,
             (mergedReq env file).mastodon_instance,
             (mergedReq env file).mastodon_token with
       | some a, some b, some c, some d, some e =>
         Except.ok ⟨a, b, c, d, e, fl, state.getD none, cd⟩
       | _, _, _, _, _ =>
         Except.error (.missingRequired (mergedReq env file).missingFields)) := by
    unfold load_config
    rw [hfl, hcd]
  refine ⟨?_, ?_, ?_⟩
  · intro hne
    generalize hM : mergedReq env file = r at hne hload ⊢
    rcases r with ⟨a, b, c, d, e⟩
    rcases a <;> rcases b <;> rcases c <;> rcases d <;> rcases e <;>
      first
        | exact hload
        | simp [missingFields_nil_iff] at hne
  · intro hnil
    generalize hM : mergedReq env file = r at hnil hload ⊢
    rcases r with ⟨a, b, c, d, e⟩
    rcases a <;> rcases b <;> rcases c <;> rcases d <;> rcases e <;>
      first
        | exact ⟨_, hload⟩
        | simp [missingFields_nil_iff] at hnil
  · intro k
    simp [ReqCfg.missingFields, List.mem_filter, Option.isNone_iff_eq_none]

/-- Witness for C9 amended: an environment missing two required fields
fails naming exactly those two, and a complete environment loads. -/
theorem config_validation_amended_witness :
    load_config ⟨none, some "mtok", some "uid", some "https://md.example",
        none, none, none⟩ none none
      = .error (.missingRequired ["misskey_instance", "mastodon_token"]) ∧
    (∃ c, load_config ⟨some "https://mk.example", some "mtok", some "uid",
        some "https://md.example", some "atok", none, none⟩ none none
      = .ok c) := by
  constructor
  · have h := (config_validation_amended
      ⟨none, some "mtok", some "uid", some "https://md.example",
       none, none, none⟩ none none (by decide) (by decide)).1 (by decide)
    rw [h]
    decide
  · exact (config_validation_amended
      ⟨some "https://mk.example", some "mtok", some "uid",
       some "https://md.example", some "atok", none, none⟩ none none
      (by decide) (by decide)).2.1 (by decide)

end Syncbot


